import Mathlib

/-
Shallow embedding of the SQL Server connection manager in
src/app/db/connect.py (class DatabaseConnection) together with its
exception type in src/app/db/exceptions.py.

External collaborators (pyodbc driver registry, SQLAlchemy engine,
sessionmaker, Session) are modelled as environments: the registry is the
list of host-discoverable driver names, the liveness probe
(engine.connect()) takes its per-attempt outcome from a list, and a
session scope takes the outcome of the caller body and of commit() from
an environment record.  create_engine itself does not touch the network
in SQLAlchemy, so engine construction is modelled as always succeeding
and the probe as the point where transient connectivity errors arise.
Engine handles are identified by the attempt index at which they were
created, so dispose() calls can be counted per handle.
-/

namespace SqlServerDb

/-- Python exceptions that the code distinguishes.  OperationalError is a
subclass of SQLAlchemyError; DatabaseConnectionError (exceptions.py)
extends Exception directly and is NOT a SQLAlchemyError; otherError
stands for any unrelated exception type (carrying its type name), for
example the ValueError raised by a caller body. -/
inductive Err where
  | operationalError (msg : String)
  | sqlAlchemyError (msg : String)
  | databaseConnectionError (msg : String)
  | otherError (ty : String) (msg : String)
deriving DecidableEq, Repr

/-- Python str(e) for the exceptions above (DatabaseConnectionError passes
its message to Exception, so str returns it verbatim). -/
def errStr : Err → String
  | .operationalError m => m
  | .sqlAlchemyError m => m
  | .databaseConnectionError m => m
  | .otherError _ m => m

/-- Whether an exception is caught by the clause
except (OperationalError, SQLAlchemyError) in _init_connection.
OperationalError subclasses SQLAlchemyError, so both match; the
DatabaseConnectionError raised by _get_available_driver does not. -/
def isSQLAlchemyError : Err → Bool
  | .operationalError _ => true
  | .sqlAlchemyError _ => true
  | .databaseConnectionError _ => false
  | .otherError _ _ => false

/-- DatabaseConnection.SUPPORTED_DRIVERS.  The source is a frozenset; the
iteration order of next(iter(...)) is unspecified in Python, so the model
fixes the listed order (no claim depends on which member is picked). -/
def SUPPORTED_DRIVERS : List String :=
  ["ODBC Driver 17 for SQL Server",
   "ODBC Driver 13 for SQL Server",
   "SQL Server Native Client 11.0"]

/-- The mutable fields of a DatabaseConnection instance.  engine and
session_maker are the _engine and _session_maker attributes; a handle is
the attempt index at which it was created. -/
structure DatabaseConnection where
  db : String
  host : String
  port : Nat
  timeout : Nat
  engine : Option Nat
  session_maker : Option Nat
deriving DecidableEq, Repr

/-- DatabaseConnection.__init__: stores the target fields and sets both
handles to None. -/
def DatabaseConnection.init (db host : String) (port : Nat)
    (timeout : Nat := 30) : DatabaseConnection :=
  ⟨db, host, port, timeout, none, none⟩

/-- DatabaseConnection._get_available_driver: intersects SUPPORTED_DRIVERS
with pyodbc.drivers() and returns one member, raising
DatabaseConnectionError when the intersection is empty. -/
def get_available_driver (pyodbc_drivers : List String) :
    Except Err String :=
  match SUPPORTED_DRIVERS.filter (fun d => pyodbc_drivers.contains d) with
  | [] => .error (.databaseConnectionError "No supported ODBC driver found.")
  | d :: _ => .ok d

/-- Environment of one _init_connection run: the host-discoverable driver
names (pyodbc.drivers()) and, per attempt index, the outcome of the
liveness probe engine.connect() (none = succeeds; entries past the end of
the list also mean success). -/
structure InitEnv where
  pyodbc_drivers : List String
  probe_outcomes : List (Option Err)
deriving Repr

/-- Observable side effects of the connection lifecycle: engine
construction (create_engine with the connection string), the liveness
probe (engine.connect()), the backoff sleep(seconds), and
engine.dispose(). -/
inductive Event where
  | create_engine (conn_str : String)
  | probe (engineId : Nat)
  | sleep (seconds : Nat)
  | dispose (engineId : Nat)
deriving DecidableEq, Repr

/-- The f-string connection descriptor built in _init_connection. -/
def connection_string (c : DatabaseConnection) (driver : String) : String :=
  "mssql+pyodbc://" ++ c.host ++ ":" ++ toString c.port ++ "/" ++ c.db ++
    "?driver=" ++ driver ++ "&trusted_connection=yes"

/-- The delay computed between retries in _init_connection:
_init_delay * (_backoff_factor ** attempt). -/
def backoff_delay (init_delay backoff_factor attempt : Nat) : Nat :=
  init_delay * backoff_factor ^ attempt

/-- The body of the for-attempt-in-range(_max_retries) loop of
DatabaseConnection._init_connection.  fuel is the number of remaining
iterations (max_retries - attempt at every call).  Each iteration
resolves a driver (a DatabaseConnectionError from resolution is not
caught by the except clause and propagates at once), assigns fresh
_engine and _session_maker handles, probes the connection, and on a
caught transient error either sleeps and retries or, on the last
attempt, raises DatabaseConnectionError wrapping str(e).  Returns the
updated instance, the event trace, and none for a normal return or some
e for a raised exception. -/
def init_loop (env : InitEnv) (max_retries init_delay backoff_factor : Nat) :
    Nat → Nat → DatabaseConnection → List Event →
    DatabaseConnection × List Event × Option Err
  | 0, _, c, tr => (c, tr, none)
  | fuel + 1, attempt, c, tr =>
    match get_available_driver env.pyodbc_drivers with
    | .error e => (c, tr, some e)
    | .ok driver =>
      let cs := connection_string c driver
      let c := { c with engine := some attempt, session_maker := some attempt }
      let tr := tr ++ [Event.create_engine cs, Event.probe attempt]
      match env.probe_outcomes.getD attempt none with
      | none => (c, tr, none)
      | some e =>
        if isSQLAlchemyError e then
          if attempt < max_retries - 1 then
            init_loop env max_retries init_delay backoff_factor fuel
              (attempt + 1) c
              (tr ++ [Event.sleep (backoff_delay init_delay backoff_factor attempt)])
          else
            (c, tr,
             some (.databaseConnectionError
               ("Failed to connect to database: " ++ errStr e)))
        else
          (c, tr, some e)

/-- DatabaseConnection._init_connection with its literal constants
_max_retries = 3, _init_delay = 1, _backoff_factor = 2. -/
def init_connection (env : InitEnv) (c : DatabaseConnection) :
    DatabaseConnection × List Event × Option Err :=
  init_loop env 3 1 2 3 0 c []

/-- Calls made on the Session object inside get_session. -/
inductive SessionEvent where
  | commit
  | rollback
  | close
deriving DecidableEq, Repr

/-- Outcome of the caller body of a with-block: normal completion or an
exception raised inside the block. -/
inductive BodyResult where
  | ok
  | raises (e : Err)
deriving DecidableEq, Repr

/-- Error carried by a body outcome. -/
def bodyErr : BodyResult → Option Err
  | .ok => none
  | .raises e => some e

/-- Environment of one get_session scope: what the caller body does and
the outcome of session.commit() (none = commits cleanly). -/
structure SessionEnv where
  body : BodyResult
  commit_outcome : Option Err
deriving DecidableEq, Repr

/-- DatabaseConnection.get_session as a contextmanager: raises
DatabaseConnectionError when _session_maker is None (no session is
created); otherwise creates a session, runs the body, commits on normal
completion, and on any exception from body or commit rolls back and
re-raises, closing the session in the finally block on every path.
Returns the list of Session calls and none for normal exit or some e for
the propagated exception. -/
def get_session (c : DatabaseConnection) (env : SessionEnv) :
    List SessionEvent × Option Err :=
  match c.session_maker with
  | none =>
    ([], some (.databaseConnectionError "Database connection not initialised."))
  | some _ =>
    match env.body with
    | .raises e => ([SessionEvent.rollback, SessionEvent.close], some e)
    | .ok =>
      match env.commit_outcome with
      | none => ([SessionEvent.commit, SessionEvent.close], none)
      | some e =>
        ([SessionEvent.commit, SessionEvent.rollback, SessionEvent.close],
         some e)

/-- DatabaseConnection._close: if _engine is set, dispose it and set
_engine to None; otherwise do nothing.  The source never touches
_session_maker here. -/
def close_conn (c : DatabaseConnection) : DatabaseConnection × List Event :=
  match c.engine with
  | some eid => ({ c with engine := none }, [Event.dispose eid])
  | none => (c, [])

/-- Observable outcome of one DatabaseConnection.get_connection run:
final instance, engine-level event trace, whether the caller body was
entered, how many times _close was invoked, and the propagated
exception, if any. -/
structure FacadeResult where
  final : DatabaseConnection
  events : List Event
  body_invoked : Bool
  close_calls : Nat
  result : Option Err
deriving DecidableEq, Repr

/-- DatabaseConnection.get_connection: constructs the instance, calls
_init_connection — note that this call stands BEFORE the try/finally in
the source, so an exception from it propagates without _close running —
then yields to the body inside try/except/finally, re-raising any body
exception after the finally block has invoked _close exactly once. -/
def get_connection (db host : String) (port timeout : Nat) (env : InitEnv)
    (body : BodyResult) : FacadeResult :=
  let c0 := DatabaseConnection.init db host port timeout
  let r := init_connection env c0
  match r.2.2 with
  | some e => ⟨r.1, r.2.1, false, 0, some e⟩
  | none =>
    let rc := close_conn r.1
    ⟨rc.1, r.2.1 ++ rc.2, true, 1, bodyErr body⟩

/-- The lifecycle states named by the design (Connecting exists only
inside a call to _init_connection, so between operations a manager is
Uninitialized, Connected or Closed). -/
inductive ManagerState where
  | uninitialized
  | connected
  | closed
deriving DecidableEq, Repr

/-- Ghost state after a completed _init_connection call, indexed by its
outcome: a normal return means Connected, a raised exception means the
manager is not connected (Closed). -/
def stateAfterInit : Option Err → ManagerState
  | none => .connected
  | some _ => .closed

/-- One observable operation on a DatabaseConnection instance. -/
inductive Op where
  | initConn (env : InitEnv)
  | getSession (env : SessionEnv)
  | close
deriving Repr

/-- One step of the lifecycle: the concrete field updates of the source
paired with the ghost lifecycle state.  get_session only reads
_session_maker and mutates nothing; _close moves any initialised manager
to Closed and is a no-op on the state of an Uninitialized one. -/
def step (cs : DatabaseConnection × ManagerState) (op : Op) :
    DatabaseConnection × ManagerState :=
  match op with
  | .initConn env =>
    let r := init_connection env cs.1
    (r.1, stateAfterInit r.2.2)
  | .getSession _ => cs
  | .close =>
    let r := close_conn cs.1
    (r.1,
     match cs.2 with
     | ManagerState.uninitialized => ManagerState.uninitialized
     | _ => ManagerState.closed)

/-- A run starting from __init__ (state Uninitialized) through a sequence
of operations. -/
def run (db host : String) (port timeout : Nat) (ops : List Op) :
    DatabaseConnection × ManagerState :=
  ops.foldl step (DatabaseConnection.init db host port timeout,
    ManagerState.uninitialized)

/-- An environment in which one supported driver is discoverable and the
first probe succeeds: _init_connection connects on the first attempt. -/
def connectEnv : InitEnv :=
  ⟨["ODBC Driver 17 for SQL Server"], [none]⟩

/-- An environment in which no supported driver is discoverable. -/
def noDriverEnv : InitEnv :=
  ⟨["Unsupported Driver"], []⟩

/-- C7: for every attempt index a, the retry delay equals
initialDelay * backoffFactor ^ a with the defaults initialDelay = 1 and
backoffFactor = 2 used by _init_connection, i.e. 2 ^ a time units, and
the first retry (attempt 0) waits initialDelay = 1. -/
theorem backoff_delay_spec :
    (∀ a : Nat, backoff_delay 1 2 a = 1 * 2 ^ a) ∧
      backoff_delay 1 2 0 = 1 := by
  refine ⟨fun a => rfl, rfl⟩

/-- C8: when the body of a session scope raises, get_session performs
exactly one rollback and exactly one close (and no commit), and
re-propagates the original exception unchanged. -/
theorem get_session_body_raises (c : DatabaseConnection) (env : SessionEnv)
    (e : Err) (hm : c.session_maker ≠ none)
    (hb : env.body = BodyResult.raises e) :
    get_session c env = ([SessionEvent.rollback, SessionEvent.close], some e) := by
  match hsm : c.session_maker with
  | none => exact absurd hsm hm
  | some m => simp [get_session, hsm, hb]

/-- C8 witness: a concrete connected manager whose body raises
ValueError sees one rollback, one close, and the same error. -/
theorem get_session_body_raises_witness :
    (DatabaseConnection.init "test_db" "test_host" 1433 30).session_maker = none ∧
    get_session
      { DatabaseConnection.init "test_db" "test_host" 1433 30 with
          engine := some 0, session_maker := some 0 }
      ⟨BodyResult.raises (Err.otherError "ValueError" "Test error"), none⟩ =
      ([SessionEvent.rollback, SessionEvent.close],
       some (Err.otherError "ValueError" "Test error")) := by
  refine ⟨rfl, ?_⟩
  exact get_session_body_raises _ _ _ (by simp) rfl

/-- C9: when the body of a session scope completes normally and commit
succeeds, get_session performs exactly one commit and then exactly one
close, in that order, with zero rollbacks, and propagates no error. -/
theorem get_session_body_ok (c : DatabaseConnection) (env : SessionEnv)
    (hm : c.session_maker ≠ none) (hb : env.body = BodyResult.ok)
    (hc : env.commit_outcome = none) :
    get_session c env = ([SessionEvent.commit, SessionEvent.close], none) := by
  match hsm : c.session_maker with
  | none => exact absurd hsm hm
  | some m => simp [get_session, hsm, hb, hc]

/-- C9 witness: a concrete connected manager with a clean body and clean
commit sees commit then close and no rollback. -/
theorem get_session_body_ok_witness :
    get_session
      { DatabaseConnection.init "test_db" "test_host" 1433 30 with
          engine := some 0, session_maker := some 0 }
      ⟨BodyResult.ok, none⟩ =
      ([SessionEvent.commit, SessionEvent.close], none) :=
  get_session_body_ok _ _ (by simp) rfl rfl

/-- C10: when the body completes normally but commit itself raises,
get_session rolls back exactly once, closes exactly once, and propagates
the commit error to the caller. -/
theorem get_session_commit_raises (c : DatabaseConnection) (env : SessionEnv)
    (e : Err) (hm : c.session_maker ≠ none) (hb : env.body = BodyResult.ok)
    (hc : env.commit_outcome = some e) :
    get_session c env =
      ([SessionEvent.commit, SessionEvent.rollback, SessionEvent.close],
       some e) := by
  match hsm : c.session_maker with
  | none => exact absurd hsm hm
  | some m => simp [get_session, hsm, hb, hc]

/-- C5: when the supported-driver set is disjoint from the discoverable
drivers, _init_connection propagates DatabaseConnectionError at once:
the instance is unchanged and the event trace is empty, so zero engines
are opened, zero probes run and zero backoff sleeps happen. -/
theorem init_no_driver_immediate (env : InitEnv) (c : DatabaseConnection)
    (h : ∀ d ∈ SUPPORTED_DRIVERS, d ∉ env.pyodbc_drivers) :
    init_connection env c =
      (c, [],
       some (Err.databaseConnectionError "No supported ODBC driver found.")) := by
  have hfilter :
      SUPPORTED_DRIVERS.filter (fun d => decide (d ∈ env.pyodbc_drivers)) = [] := by
    rw [List.filter_eq_nil_iff]
    intro d hd
    simp [h d hd]
  simp [init_connection, init_loop, get_available_driver, hfilter]

/-- C5 witness: with only an unsupported driver installed,
_init_connection on a concrete target fails at once with no attempts. -/
theorem init_no_driver_immediate_witness :
    init_connection noDriverEnv
        (DatabaseConnection.init "test_db" "test_host" 1433 30) =
      (DatabaseConnection.init "test_db" "test_host" 1433 30, [],
       some (Err.databaseConnectionError "No supported ODBC driver found.")) :=
  init_no_driver_immediate noDriverEnv _ (by decide)

/-- C6: when a driver resolves but every probe raises a transient
(SQLAlchemy) error, _init_connection makes exactly three attempts
(three create_engine and probe events), sleeps exactly twice with the
backoff delays 1 and 2, raises DatabaseConnectionError wrapping the last
cause, and the manager ends not connected (Closed). -/
theorem init_transient_exhausts (c : DatabaseConnection) (pd : List String)
    (d : String) (e0 e1 e2 : Err)
    (hd : get_available_driver pd = Except.ok d)
    (h0 : isSQLAlchemyError e0 = true) (h1 : isSQLAlchemyError e1 = true)
    (h2 : isSQLAlchemyError e2 = true) :
    init_connection ⟨pd, [some e0, some e1, some e2]⟩ c =
      ({ c with engine := some 2, session_maker := some 2 },
       [Event.create_engine (connection_string c d), Event.probe 0,
        Event.sleep 1,
        Event.create_engine (connection_string c d), Event.probe 1,
        Event.sleep 2,
        Event.create_engine (connection_string c d), Event.probe 2],
       some (Err.databaseConnectionError
         ("Failed to connect to database: " ++ errStr e2))) ∧
    stateAfterInit
        (init_connection ⟨pd, [some e0, some e1, some e2]⟩ c).2.2 =
      ManagerState.closed := by
  have hmain :
      init_connection ⟨pd, [some e0, some e1, some e2]⟩ c =
        ({ c with engine := some 2, session_maker := some 2 },
         [Event.create_engine (connection_string c d), Event.probe 0,
          Event.sleep 1,
          Event.create_engine (connection_string c d), Event.probe 1,
          Event.sleep 2,
          Event.create_engine (connection_string c d), Event.probe 2],
         some (Err.databaseConnectionError
           ("Failed to connect to database: " ++ errStr e2))) := by
    simp [init_connection, init_loop, hd, h0, h1, h2, backoff_delay,
      connection_string]
  refine ⟨hmain, ?_⟩
  rw [hmain]
  rfl

/-- C6 witness: with one supported driver present and an
OperationalError on each of the three probes, the run makes three
attempts, two sleeps of 1 and 2 seconds, and raises the wrapping error. -/
theorem init_transient_exhausts_witness :
    init_connection
        ⟨["ODBC Driver 17 for SQL Server"],
         [some (Err.operationalError "mock error"),
          some (Err.operationalError "mock error"),
          some (Err.operationalError "mock error")]⟩
        (DatabaseConnection.init "test_db" "test_host" 1433 30) =
      ({ DatabaseConnection.init "test_db" "test_host" 1433 30 with
           engine := some 2, session_maker := some 2 },
       [Event.create_engine
          (connection_string (DatabaseConnection.init "test_db" "test_host" 1433 30)
            "ODBC Driver 17 for SQL Server"), Event.probe 0,
        Event.sleep 1,
        Event.create_engine
          (connection_string (DatabaseConnection.init "test_db" "test_host" 1433 30)
            "ODBC Driver 17 for SQL Server"), Event.probe 1,
        Event.sleep 2,
        Event.create_engine
          (connection_string (DatabaseConnection.init "test_db" "test_host" 1433 30)
            "ODBC Driver 17 for SQL Server"), Event.probe 2],
       some (Err.databaseConnectionError
         ("Failed to connect to database: " ++
           errStr (Err.operationalError "mock error")))) :=
  (init_transient_exhausts
    (DatabaseConnection.init "test_db" "test_host" 1433 30)
    ["ODBC Driver 17 for SQL Server"] "ODBC Driver 17 for SQL Server"
    (Err.operationalError "mock error") (Err.operationalError "mock error")
    (Err.operationalError "mock error") rfl rfl rfl rfl).1

/-- C1 counterexample: when driver resolution fails, get_connection
propagates the error with the body never invoked and _close called zero
times — not once as the claim states. -/
theorem get_connection_init_fail_skips_close :
    (get_connection "test_db" "test_host" 1433 30 noDriverEnv
        BodyResult.ok).close_calls = 0 ∧
    (get_connection "test_db" "test_host" 1433 30 noDriverEnv
        BodyResult.ok).body_invoked = false ∧
    (get_connection "test_db" "test_host" 1433 30 noDriverEnv
        BodyResult.ok).result =
      some (Err.databaseConnectionError "No supported ODBC driver found.") := by
  refine ⟨rfl, rfl, rfl⟩

/-- C1 (amended): get_connection runs _init_connection first; when that
raises, the error propagates with the body never invoked and _close
never called; when it returns normally, the body is invoked, _close runs
exactly once, and the body outcome (its original error, if any)
propagates unchanged after teardown. -/
theorem get_connection_lifecycle (db host : String) (port timeout : Nat)
    (env : InitEnv) (body : BodyResult) :
    (get_connection db host port timeout env body).body_invoked =
      (init_connection env
        (DatabaseConnection.init db host port timeout)).2.2.isNone ∧
    (get_connection db host port timeout env body).close_calls =
      (if (init_connection env
            (DatabaseConnection.init db host port timeout)).2.2.isNone
       then 1 else 0) ∧
    (get_connection db host port timeout env body).result =
      (match (init_connection env
              (DatabaseConnection.init db host port timeout)).2.2 with
       | some e => some e
       | none => bodyErr body) := by
  unfold get_connection
  cases h : (init_connection env
      (DatabaseConnection.init db host port timeout)).2.2 <;>
    simp [h]

/-- C2 divergence: after a successful connection followed by _close, the
manager is Closed yet _session_maker is still set (only _engine was
cleared), refuting the claimed iff between a non-null session factory
and the Connected state. -/
theorem close_breaks_connected_iff :
    (run "test_db" "test_host" 1433 30 [Op.initConn connectEnv, Op.close]).2 =
      ManagerState.closed ∧
    (run "test_db" "test_host" 1433 30
        [Op.initConn connectEnv, Op.close]).1.session_maker = some 0 ∧
    (run "test_db" "test_host" 1433 30
        [Op.initConn connectEnv, Op.close]).1.engine = none := by
  refine ⟨rfl, rfl, rfl⟩

/-- C3 divergence: on a manager Closed by _close after a successful
connection, get_session does not raise the not-initialised error but
yields a working scope (commit and close run, no error), because the
check only consults the never-cleared _session_maker. -/
theorem get_session_after_close_no_error :
    (run "test_db" "test_host" 1433 30 [Op.initConn connectEnv, Op.close]).2 =
      ManagerState.closed ∧
    get_session
        (run "test_db" "test_host" 1433 30
          [Op.initConn connectEnv, Op.close]).1
        ⟨BodyResult.ok, none⟩ =
      ([SessionEvent.commit, SessionEvent.close], none) := by
  refine ⟨rfl, rfl⟩

/-- C4 divergence: _close on a connected manager disposes the engine
exactly once and clears _engine, a second _close is a no-op with no
second dispose and no exception, but _session_maker is left set — the
code never clears the session factory, contradicting the claim and the
docstring of _close. -/
theorem close_conn_divergence :
    (close_conn
        (run "test_db" "test_host" 1433 30 [Op.initConn connectEnv]).1).2 =
      [Event.dispose 0] ∧
    (close_conn
        (run "test_db" "test_host" 1433 30 [Op.initConn connectEnv]).1).1.engine =
      none ∧
    close_conn
        (close_conn
          (run "test_db" "test_host" 1433 30 [Op.initConn connectEnv]).1).1 =
      ((close_conn
          (run "test_db" "test_host" 1433 30 [Op.initConn connectEnv]).1).1,
       []) ∧
    (close_conn
        (run "test_db" "test_host" 1433 30
          [Op.initConn connectEnv]).1).1.session_maker = some 0 := by
  refine ⟨rfl, rfl, rfl, rfl⟩

/-- C10 witness: a concrete connected manager whose commit raises an
OperationalError sees commit, rollback, close and the commit error. -/
theorem get_session_commit_raises_witness :
    get_session
      { DatabaseConnection.init "test_db" "test_host" 1433 30 with
          engine := some 0, session_maker := some 0 }
      ⟨BodyResult.ok, some (Err.operationalError "mock error")⟩ =
      ([SessionEvent.commit, SessionEvent.rollback, SessionEvent.close],
       some (Err.operationalError "mock error")) :=
  get_session_commit_raises _ _ _ (by simp) rfl rfl

end SqlServerDb
